import Mathlib

/-!
Verification of the container build / publish core of the `iago` CLI
(`internal/auth/auth.go`, `internal/container/builder.go`, `cmd/iago/main.go`),
via a shallow embedding: environment reads (env vars, file existence,
network results) are passed as explicit inputs, external library calls
(registry network I/O, the 1Password SDK, reference validation) are modelled
as abstract outcome parameters, and `os.Exit` is modelled as an aborting
result in the driver model.
-/

namespace Iago

/-! ## Credential resolution (`internal/auth/auth.go`) -/

/-- `auth.AuthConfig`: resolved registry authentication. `source` is one of
`"cli"`, `"env"`, `"1password"`. -/
structure AuthConfig where
  username : String
  token : String
  source : String
  deriving Repr, DecidableEq

/-- Error message of `GetAuthConfig` when no source yields a token
(`auth.go:51`). -/
def noAuthErrorMsg : String :=
  "no authentication available: set --token flag, GITHUB_TOKEN env var, or OP_SERVICE_ACCOUNT_TOKEN for 1Password integration"

/-- `auth.getAuthFrom1Password`: the 1Password SDK calls are external, so the
outcome of client creation plus secret resolution is passed in as
`opResolve : Except String String` (an error, or the resolved token). -/
def getAuthFrom1Password (username : String) (opResolve : Except String String) :
    Except String AuthConfig :=
  match opResolve with
  | .error e => .error e
  | .ok token => .ok ⟨username, token, "1password"⟩

/-- `auth.GetAuthConfig`: priority chain CLI token → `GITHUB_TOKEN` env var →
1Password (when `OP_SERVICE_ACCOUNT_TOKEN` is set). `githubToken` and
`opServiceAccountToken` are the values of the two environment variables
(empty string = unset, as `os.Getenv` reports). -/
def GetAuthConfig (cliUsername cliToken githubToken opServiceAccountToken : String)
    (opResolve : Except String String) : Except String AuthConfig :=
  if cliToken ≠ "" then
    .ok ⟨cliUsername, cliToken, "cli"⟩
  else if githubToken ≠ "" then
    .ok ⟨cliUsername, githubToken, "env"⟩
  else if opServiceAccountToken ≠ "" then
    getAuthFrom1Password cliUsername opResolve
  else
    .error noAuthErrorMsg

/-- `container.AuthConfig` (`builder.go:46`): the container package's
authentication record. -/
structure ContainerAuthConfig where
  username : String
  password : String
  token : String
  deriving Repr, DecidableEq

/-- `auth.AuthConfig.ToContainerAuthConfig` (`auth.go:83`): the token is
copied into both the `Password` and `Token` fields. -/
def AuthConfig.ToContainerAuthConfig (ac : AuthConfig) : ContainerAuthConfig :=
  ⟨ac.username, ac.token, ac.token⟩

/-- The authentication option `PushContainer` attaches to the push
(`builder.go:267`): bearer, basic, or none. -/
inductive PushAuth where
  | anonymous
  | bearer (token : String)
  | basic (username password : String)
  deriving Repr, DecidableEq

/-- Authentication selection inside `PushContainer` (`builder.go:267-278`):
a non-empty token selects bearer auth; otherwise a non-empty username and
password pair selects basic auth; otherwise no auth option is attached. -/
def selectPushAuth (a : Option ContainerAuthConfig) : PushAuth :=
  match a with
  | none => .anonymous
  | some ac =>
    if ac.token ≠ "" then .bearer ac.token
    else if ac.username ≠ "" ∧ ac.password ≠ "" then .basic ac.username ac.password
    else .anonymous

example : GetAuthConfig "u" "X" "Y" "" (.error "no op") = .ok ⟨"u", "X", "cli"⟩ := rfl
example : GetAuthConfig "u" "" "Y" "" (.error "no op") = .ok ⟨"u", "Y", "env"⟩ := rfl
example : GetAuthConfig "u" "" "" "" (.error "no op") = .error noAuthErrorMsg := rfl
example : selectPushAuth (some ⟨"u", "t", "t"⟩) = .bearer "t" := by decide

/-! ## Base-image extraction (`builder.go:122-139`, `parseBaseImage`) -/

/-- Go's `strings.Split(s, "\n")`, as character-list splitting (Lean's
`String.splitOn` does not reduce inside the kernel, so the Go string
helpers are given over `String.data`). -/
def splitLines (s : String) : List String :=
  (s.data.splitOn '\n').map fun cs => String.mk cs

/-- Go's `strings.TrimSpace`: drop leading and trailing whitespace. -/
def goTrim (s : String) : String :=
  String.mk (((s.data.dropWhile Char.isWhitespace).reverse.dropWhile
    Char.isWhitespace).reverse)

/-- Go's `strings.ToUpper` (its ASCII behaviour, which is all the
`"FROM "` comparison consults). -/
def goToUpper (s : String) : String := String.mk (s.data.map Char.toUpper)

/-- Go's `strings.Fields`: split on whitespace runs, dropping empty
fields. -/
def goFields (s : String) : List String :=
  ((s.data.splitOnP fun c => c.isWhitespace).map String.mk).filter (· ≠ "")

/-- One line of `parseBaseImage`'s loop condition: the trimmed line,
upper-cased, starts with `"FROM "` (`builder.go:125-126`). -/
def isFromInstruction (l : String) : Bool :=
  ("FROM ").data.isPrefixOf (goToUpper (goTrim l)).data

/-- The loop of `parseBaseImage` (`builder.go:124-137`): for each line, trim
it; if its upper-cased form starts with `"FROM "` and it has at least two
whitespace-separated fields, return the second field (the base image
reference string handed to `name.ParseReference`, an external library);
otherwise keep scanning.  `none` models the
`"no FROM instruction found"` error (`builder.go:138`). -/
def parseBaseImageLines : List String → Option String
  | [] => none
  | l :: rest =>
    let line := goTrim l
    if ("FROM ").data.isPrefixOf (goToUpper line).data then
      match goFields line with
      | _ :: base :: _ => some base
      | _ => parseBaseImageLines rest
    else parseBaseImageLines rest

/-- `Builder.parseBaseImage` (`builder.go:122`): split the manifest text on
`"\n"` and scan the lines. -/
def parseBaseImage (dockerfile : String) : Option String :=
  parseBaseImageLines (splitLines dockerfile)

example : parseBaseImage "# c\nfrom alpine:3.19 x\nFROM busybox" = some "alpine:3.19" := by decide
example : parseBaseImage "RUN ls" = none := by decide

/-! ## Context archiving (`builder.go:142-241`, `createLayerFromContext`)

`filepath.Walk` is Go-library behaviour; its output — the visit sequence, in
walk order, with each entry's `FileInfo` — is the model's input.  Each visit
carries its path relative to the context root as a list of path components
(`segs`, empty for the root directory itself); `info.Name()` is the last
component, and the forward-slash relative path is the components joined
with `"/"`. -/

/-- The part of Go's `os.FileInfo` that `createLayerFromContext` consults:
entry type plus, for regular files, the bytes `io.Copy` streams into the
archive. -/
inductive FileKind where
  | regular (content : List Nat)
  | directory
  | symlink (target : String)
  | other
  deriving Repr, DecidableEq

/-- One callback invocation of the `filepath.Walk` in
`createLayerFromContext`. -/
structure VisitEntry where
  segs : List String
  mode : Nat
  kind : FileKind
  deriving Repr, DecidableEq

/-- `info.Name()`: the base name, i.e. the last path component. -/
def VisitEntry.name (e : VisitEntry) : String := e.segs.getLastD ""

/-- Join path components with `"/"` (the `filepath.ToSlash` form of the
relative path, `builder.go:169-175`). -/
def renderPath : List String → String
  | [] => ""
  | s :: rest => if rest = [] then s else s ++ "/" ++ renderPath rest

/-- `relPath` of a visit: its components joined with `"/"`. -/
def VisitEntry.relPath (e : VisitEntry) : String := renderPath e.segs

/-- One tar entry of the emitted layer: header name, permission bits, and
content / link target as the entry type requires. -/
inductive LayerEntry where
  | file (path : String) (mode : Nat) (content : List Nat)
  | dir (path : String) (mode : Nat)
  | symlink (path : String) (target : String)
  deriving Repr, DecidableEq

/-- The header name of a layer entry. -/
def LayerEntry.path : LayerEntry → String
  | .file p _ _ => p
  | .dir p _ => p
  | .symlink p _ => p

/-- The walk callback body (`builder.go:153-226`): skip the context root
itself; skip any entry whose base name is `"Dockerfile"` or
`"Containerfile"`; emit regular files with content and mode, directories
with mode, symlinks with their literal target; skip every other entry
type. -/
def archiveEntry (e : VisitEntry) : Option LayerEntry :=
  if e.segs = [] then none
  else if e.name = "Dockerfile" ∨ e.name = "Containerfile" then none
  else match e.kind with
    | .regular c => some (.file e.relPath e.mode c)
    | .directory => some (.dir e.relPath e.mode)
    | .symlink t => some (.symlink e.relPath t)
    | .other => none

/-- `Builder.createLayerFromContext`: the emitted layer is the walk's visit
sequence filtered through the callback, in walk order. -/
def createLayerFromContext (visits : List VisitEntry) : List LayerEntry :=
  visits.filterMap archiveEntry

/-! ## Signing decision (`builder.go:23-30`, `291-337`) -/

/-- The ambient environment the signing decision reads: the two CI
environment variables, the CLI key-path flag and whether that path exists,
the `COSIGN_PRIVATE_KEY` value, and the home-directory default key
location. -/
structure SignEnv where
  githubActions : Bool
  ci : Bool
  cosignKeyPathFlag : String
  flagPathExists : Bool
  cosignPrivateKeyEnv : String
  homeDirOk : Bool
  homeDir : String
  defaultKeyExists : Bool
  deriving Repr, DecidableEq

/-- `isGitHubActions` (`builder.go:23`): `GITHUB_ACTIONS == "true"`. -/
def isGitHubActions (env : SignEnv) : Bool := env.githubActions

/-- `isCIEnvironment` (`builder.go:28`): `CI == "true"` or GitHub Actions.
Defined in the source but not consulted by the signing decision. -/
def isCIEnvironment (env : SignEnv) : Bool := env.ci || isGitHubActions env

/-- `Builder.resolveSigningKeyPath` (`builder.go:312`): CLI flag path if it
exists, else the `COSIGN_PRIVATE_KEY` value (key content, no existence
check), else `~/.config/sigstore/cosign.key` if the home directory resolves
and the file exists, else `""`. -/
def resolveSigningKeyPath (env : SignEnv) : String :=
  if env.cosignKeyPathFlag ≠ "" ∧ env.flagPathExists then env.cosignKeyPathFlag
  else if env.cosignPrivateKeyEnv ≠ "" then env.cosignPrivateKeyEnv
  else if env.homeDirOk ∧ env.defaultKeyExists then
    env.homeDir ++ "/.config/sigstore/cosign.key"
  else ""

/-- The signing strategy `SignContainer` dispatches to. -/
inductive SigningMethod where
  | skip
  | keyless
  | keyBased (key : String)
  deriving Repr, DecidableEq

/-- The decision structure of `Builder.SignContainer` (`builder.go:291-309`):
no-op unless signing is requested; keyless in GitHub Actions; otherwise
key-based when a key source resolves, keyless as fallback. -/
def signingDecision (sign : Bool) (env : SignEnv) : SigningMethod :=
  if ¬sign then .skip
  else if isGitHubActions env then .keyless
  else
    let keyPath := resolveSigningKeyPath env
    if keyPath ≠ "" then .keyBased keyPath
    else .keyless

/-! ## `BuildAndPush` ordering (`builder.go:386-420`) -/

/-- The observable pipeline steps of `BuildAndPush`. -/
inductive BuildStep where
  | build
  | sign
  | push
  deriving Repr, DecidableEq

/-- Outcomes of the three externally-effectful stages, passed in explicitly:
`BuildContainer` (registry pull + archiving), `SignContainer`'s execution,
and `PushContainer`'s network write. -/
structure BuildOutcomes where
  buildResult : Except String Unit
  signResult : Except String Unit
  pushResult : Except String Unit

/-- `Builder.BuildAndPush`: build; if `Sign`, sign (a signing error returns
before any push); if not `NoPush`, push.  The first component is the trace
of steps that actually ran, in order. -/
def BuildAndPush (sign noPush : Bool) (oc : BuildOutcomes) :
    List BuildStep × Except String Unit :=
  match oc.buildResult with
  | .error e => ([.build], .error ("build failed: " ++ e))
  | .ok () =>
    let signPart : List BuildStep × Except String Unit :=
      if sign then
        match oc.signResult with
        | .error e => ([.sign], .error ("signing failed: " ++ e))
        | .ok () => ([.sign], .ok ())
      else ([], .ok ())
    match signPart with
    | (t, .error e) => (.build :: t, .error e)
    | (t, .ok ()) =>
      if ¬noPush then
        match oc.pushResult with
        | .error e => (.build :: t ++ [.push], .error ("push failed: " ++ e))
        | .ok () => (.build :: t ++ [.push], .ok ())
      else (.build :: t, .ok ())

/-! ## Workload driver (`cmd/iago/main.go:735-865`)

`exitWithError` (`main.go:22`) prints to stderr and calls `os.Exit(code)`;
it never returns.  The model's result type is therefore
`Except Nat Unit`: `.error code` is process termination with that exit
code, `.ok ()` a normal return.  The first component is the trace of
externally observable driver actions. -/

/-- Externally observable driver actions. -/
inductive DriverEvent where
  | validateRegistry
  | resolveAuth
  | buildWorkload (name : String)
  deriving Repr, DecidableEq

/-- The driver's ambient world: which container directories exist, whether
the local registry probe succeeds, the credential sources, and each
workload's build/sign/push outcomes. -/
structure DriverEnv where
  dirExists : String → Bool
  registryOk : Bool
  cliUsername : String
  cliToken : String
  githubToken : String
  opServiceAccountToken : String
  opResolve : Except String String
  outcomes : String → BuildOutcomes

/-- The local-registry pre-flight of the driver (`main.go:771-776` and
`842-847`): probe only when `--local` is set and `--no-push` is not; a
failed probe exits the process with code 1. -/
def registryPhase (env : DriverEnv) (isLocal noPush : Bool) :
    List DriverEvent × Except Nat Unit :=
  if isLocal ∧ ¬noPush then
    if env.registryOk then ([.validateRegistry], .ok ())
    else ([.validateRegistry], .error 1)
  else ([], .ok ())

/-- The credential step of `buildSingleWorkload` (`main.go:778-787`):
resolve only when pushing; a resolution error exits the process with
code 1. -/
def authPhase (env : DriverEnv) (noPush : Bool) :
    List DriverEvent × Except Nat Unit :=
  if ¬noPush then
    match GetAuthConfig env.cliUsername env.cliToken env.githubToken
        env.opServiceAccountToken env.opResolve with
    | .error _ => ([.resolveAuth], .error 1)
    | .ok _ => ([.resolveAuth], .ok ())
  else ([], .ok ())

/-- `buildSingleWorkload` (`main.go:763-818`): missing container directory,
failed registry probe, failed credential resolution, and a failed
`BuildAndPush` each exit the process with code 1 (via `exitWithError`);
otherwise the function returns normally. -/
def buildSingleWorkload (env : DriverEnv) (sign isLocal noPush : Bool)
    (name : String) : List DriverEvent × Except Nat Unit :=
  if ¬env.dirExists name then ([], .error 1)
  else
    match registryPhase env isLocal noPush with
    | (t, .error c) => (t, .error c)
    | (t, .ok ()) =>
      match authPhase env noPush with
      | (t2, .error c) => (t ++ t2, .error c)
      | (t2, .ok ()) =>
        match (BuildAndPush sign noPush (env.outcomes name)).2 with
        | .error _ => (t ++ t2 ++ [.buildWorkload name], .error 1)
        | .ok () => (t ++ t2 ++ [.buildWorkload name], .ok ())

/-- The per-workload loop of `buildAllWorkloads` (`main.go:852-861`).  The
loop's `continue`-on-error branch is reachable only if
`buildSingleWorkload` returns a non-nil error, but every failure path of
`buildSingleWorkload` goes through `exitWithError`, which terminates the
process; a `.error` therefore aborts the whole loop. -/
def buildLoop (env : DriverEnv) (sign isLocal noPush : Bool) :
    List String → List DriverEvent × Except Nat Unit
  | [] => ([], .ok ())
  | w :: rest =>
    match buildSingleWorkload env sign isLocal noPush w with
    | (tw, .error c) => (tw, .error c)
    | (tw, .ok ()) =>
      let (tr, r) := buildLoop env sign isLocal noPush rest
      (tw ++ tr, r)

/-- `buildAllWorkloads` (`main.go:820-865`): empty workload list exits with
code 1; the registry pre-flight runs once up front; then the per-workload
loop. -/
def buildAllWorkloads (env : DriverEnv) (sign isLocal noPush : Bool)
    (workloads : List String) : List DriverEvent × Except Nat Unit :=
  if workloads = [] then ([], .error 1)
  else
    match registryPhase env isLocal noPush with
    | (t, .error c) => (t, .error c)
    | (t, .ok ()) =>
      let (t2, r) := buildLoop env sign isLocal noPush workloads
      (t ++ t2, r)

/-! ## Theorems -/

set_option maxRecDepth 8192 in
/-- **C3**: credential resolution evaluates explicit CLI token, environment
token, and secret store in strict priority order with first match winning:
a non-empty explicit token always wins; an empty explicit token falls back
to a non-empty environment token; and with the explicit token, environment
token, and secret-store trigger variable all empty, resolution fails with
an error naming all three options. -/
theorem C3_credential_priority (u x y op : String) (opResolve : Except String String) :
    (x ≠ "" → GetAuthConfig u x y op opResolve = .ok ⟨u, x, "cli"⟩) ∧
    (x = "" → y ≠ "" → GetAuthConfig u x y op opResolve = .ok ⟨u, y, "env"⟩) ∧
    (x = "" → y = "" → op = "" →
      GetAuthConfig u x y op opResolve = .error noAuthErrorMsg ∧
      List.IsInfix "--token".data noAuthErrorMsg.data ∧
      List.IsInfix "GITHUB_TOKEN".data noAuthErrorMsg.data ∧
      List.IsInfix "OP_SERVICE_ACCOUNT_TOKEN".data noAuthErrorMsg.data) := by
  refine ⟨fun hx => by simp [GetAuthConfig, hx],
    fun hx hy => by simp [GetAuthConfig, hx, hy],
    fun hx hy hop =>
      ⟨by simp [GetAuthConfig, hx, hy, hop], by decide, by decide, by decide⟩⟩

/-- Witness for C3 at a concrete input: empty CLI token, non-empty
environment token. -/
theorem C3_credential_priority_witness :
    GetAuthConfig "u" "" "Y" "" (.error "e") = .ok ⟨"u", "Y", "env"⟩ :=
  (C3_credential_priority "u" "" "Y" "" (.error "e")).2.1 rfl (by decide)

/-- **C4 counterexample**: a credential resolved from an explicit CLI token
together with a CLI username yields a container auth config whose username
and password are both non-empty, yet the publisher attaches bearer — not
basic — authentication, because `PushContainer` tests the token field
first. -/
theorem C4_counterexample :
    GetAuthConfig "andreweick" "ghp_tok" "" "" (.error "e")
      = .ok ⟨"andreweick", "ghp_tok", "cli"⟩ ∧
    (AuthConfig.ToContainerAuthConfig ⟨"andreweick", "ghp_tok", "cli"⟩).username ≠ "" ∧
    (AuthConfig.ToContainerAuthConfig ⟨"andreweick", "ghp_tok", "cli"⟩).password ≠ "" ∧
    selectPushAuth (some (AuthConfig.ToContainerAuthConfig ⟨"andreweick", "ghp_tok", "cli"⟩))
      = .bearer "ghp_tok" := by
  refine ⟨rfl, by decide, by decide, by decide⟩

/-- **C4 amended**: the publisher uses bearer authentication whenever the
credential's token field is non-empty (regardless of any username/password
pairing), and basic authentication only when the token field is empty and
both username and password are non-empty; in particular every credential
obtained from the resolver — whose password field is a copy of its token —
is pushed with bearer authentication. -/
theorem C4_push_auth_selection (ac : ContainerAuthConfig) :
    (ac.token ≠ "" → selectPushAuth (some ac) = .bearer ac.token) ∧
    (ac.token = "" → ac.username ≠ "" → ac.password ≠ "" →
      selectPushAuth (some ac) = .basic ac.username ac.password) ∧
    (∀ a : AuthConfig, a.token ≠ "" →
      selectPushAuth (some a.ToContainerAuthConfig) = .bearer a.token) := by
  refine ⟨fun ht => by simp [selectPushAuth, ht],
    fun ht hu hp => by simp [selectPushAuth, ht, hu, hp],
    fun a ha => by simp [selectPushAuth, AuthConfig.ToContainerAuthConfig, ha]⟩

/-- Witness for C4's amended statement at a concrete credential. -/
theorem C4_push_auth_selection_witness :
    selectPushAuth (some ⟨"u", "p", ""⟩) = .basic "u" "p" :=
  (C4_push_auth_selection ⟨"u", "p", ""⟩).2.1 rfl (by decide) (by decide)

/-- **C2**: when signing is requested and the build stage succeeds, the
signing step runs immediately after the build and before any push; if
signing returns an error, `BuildAndPush` returns that error and the push
step never runs, so no image is pushed unsigned. -/
theorem C2_sign_before_push (oc : BuildOutcomes) (noPush : Bool)
    (h : oc.buildResult = .ok ()) :
    (∃ rest, (BuildAndPush true noPush oc).1 = .build :: .sign :: rest) ∧
    (∀ e, oc.signResult = .error e →
      (BuildAndPush true noPush oc).2 = .error ("signing failed: " ++ e) ∧
      BuildStep.push ∉ (BuildAndPush true noPush oc).1) := by
  cases hs : oc.signResult with
  | error e =>
    have hBP : BuildAndPush true noPush oc
        = ([.build, .sign], .error ("signing failed: " ++ e)) := by
      simp [BuildAndPush, h, hs]
    refine ⟨⟨[], by rw [hBP]⟩, fun e' he' => ?_⟩
    injection he' with he''
    subst he''
    rw [hBP]
    simp
  | ok u =>
    cases u
    refine ⟨?_, fun e' he' => by simp at he'⟩
    cases noPush with
    | false =>
      cases hp : oc.pushResult with
      | error e2 => exact ⟨[.push], by simp [BuildAndPush, h, hs, hp]⟩
      | ok u2 =>
        cases u2
        exact ⟨[.push], by simp [BuildAndPush, h, hs, hp]⟩
    | true => exact ⟨[], by simp [BuildAndPush, h, hs]⟩

/-- Witness for C2 at a concrete input: successful build, failing signing
step. -/
theorem C2_sign_before_push_witness :
    (BuildAndPush true false ⟨.ok (), .error "boom", .ok ()⟩).2
      = .error "signing failed: boom" ∧
    BuildStep.push ∉ (BuildAndPush true false ⟨.ok (), .error "boom", .ok ()⟩).1 :=
  (C2_sign_before_push ⟨.ok (), .error "boom", .ok ()⟩ false rfl).2 "boom" rfl

/-- **C7**: the signing decision chooses keyless inside the automated CI
identity context (GitHub Actions, the environment whose ambient OIDC
identity keyless signing uses); otherwise it resolves a private-key source
in order CLI-supplied path (if the path exists) → `COSIGN_PRIVATE_KEY`
environment value → the default `~/.config/sigstore/cosign.key` path, and
chooses key-based signing if any source resolves; if none resolves and not
in CI, it falls back to keyless. -/
theorem C7_signing_decision (env : SignEnv) :
    (isGitHubActions env = true → signingDecision true env = .keyless) ∧
    (isGitHubActions env = false → resolveSigningKeyPath env ≠ "" →
      signingDecision true env = .keyBased (resolveSigningKeyPath env)) ∧
    (isGitHubActions env = false → resolveSigningKeyPath env = "" →
      signingDecision true env = .keyless) ∧
    (env.cosignKeyPathFlag ≠ "" → env.flagPathExists = true →
      resolveSigningKeyPath env = env.cosignKeyPathFlag) ∧
    (¬(env.cosignKeyPathFlag ≠ "" ∧ env.flagPathExists = true) →
      env.cosignPrivateKeyEnv ≠ "" →
      resolveSigningKeyPath env = env.cosignPrivateKeyEnv) ∧
    (¬(env.cosignKeyPathFlag ≠ "" ∧ env.flagPathExists = true) →
      env.cosignPrivateKeyEnv = "" → env.homeDirOk = true →
      env.defaultKeyExists = true →
      resolveSigningKeyPath env = env.homeDir ++ "/.config/sigstore/cosign.key") ∧
    (¬(env.cosignKeyPathFlag ≠ "" ∧ env.flagPathExists = true) →
      env.cosignPrivateKeyEnv = "" →
      ¬(env.homeDirOk = true ∧ env.defaultKeyExists = true) →
      resolveSigningKeyPath env = "") := by
  refine ⟨fun hgh => by simp [signingDecision, hgh],
    fun hgh hk => by simp [signingDecision, hgh, hk],
    fun hgh hk => by simp [signingDecision, hgh, hk],
    fun h1 h2 => by simp [resolveSigningKeyPath, h1, h2],
    fun h1 h2 => by simp [resolveSigningKeyPath, h1, h2],
    fun h1 h2 h3 h4 => by simp [resolveSigningKeyPath, h1, h2, h3, h4],
    fun h1 h2 h3 => by simp [resolveSigningKeyPath, h1, h2, h3]⟩

/-- Witness for C7 at a concrete environment: not in GitHub Actions, key
provided via `COSIGN_PRIVATE_KEY`. -/
theorem C7_signing_decision_witness :
    signingDecision true
      ⟨false, false, "", false, "-----BEGIN KEY-----", true, "/home/x", false⟩
      = .keyBased "-----BEGIN KEY-----" :=
  (C7_signing_decision ⟨false, false, "", false, "-----BEGIN KEY-----", true, "/home/x", false⟩).2.1
    rfl (by decide)

/-- A line that is not a FROM instruction is skipped by the scan. -/
theorem parseBaseImageLines_cons_not_from (p : String) (rest : List String)
    (hp : isFromInstruction p = false) :
    parseBaseImageLines (p :: rest) = parseBaseImageLines rest := by
  simp only [isFromInstruction] at hp
  conv_lhs => unfold parseBaseImageLines
  simp [hp]

/-- The scan of `parseBaseImageLines` passes over any block of lines none of
which is a FROM instruction. -/
theorem parseBaseImageLines_append (pre rest : List String)
    (hpre : ∀ l' ∈ pre, isFromInstruction l' = false) :
    parseBaseImageLines (pre ++ rest) = parseBaseImageLines rest := by
  induction pre with
  | nil => rfl
  | cons p ps ih =>
    rw [List.cons_append, parseBaseImageLines_cons_not_from p _ (hpre p (.head _))]
    exact ih fun l hl => hpre l (.tail _ hl)

/-- **C9**: base-image extraction parses exactly the first line starting
with the case-insensitive `FROM` keyword (after trimming) and returns that
line's second whitespace-separated token; the lines after it — in
particular any later `FROM` statements — are ignored. -/
theorem C9_first_from_line (s : String) (pre : List String) (l : String)
    (post : List String) (f0 b : String) (fs : List String)
    (hsplit : splitLines s = pre ++ l :: post)
    (hpre : ∀ l' ∈ pre, isFromInstruction l' = false)
    (hl : isFromInstruction l = true)
    (hfields : goFields (goTrim l) = f0 :: b :: fs) :
    parseBaseImage s = some b := by
  unfold parseBaseImage
  rw [hsplit, parseBaseImageLines_append pre (l :: post) hpre]
  simp only [isFromInstruction] at hl
  unfold parseBaseImageLines
  simp [hl, hfields]

/-- Witness for C9 at a concrete manifest: a comment line, a lower-case
`from` line, and a later `FROM` line that is ignored. -/
theorem C9_first_from_line_witness :
    parseBaseImage "# c\nfrom alpine:3.19 x\nFROM busybox" = some "alpine:3.19" :=
  C9_first_from_line "# c\nfrom alpine:3.19 x\nFROM busybox"
    ["# c"] "from alpine:3.19 x" ["FROM busybox"] "from" "alpine:3.19" ["x"]
    (by decide) (by decide) (by decide) (by decide)

/-- If `archiveEntry` emits a layer entry, the visit was not the root, its
base name was neither manifest filename, and the entry's header name is the
joined relative path. -/
theorem archiveEntry_path (e : VisitEntry) (le : LayerEntry)
    (h : archiveEntry e = some le) :
    e.segs ≠ [] ∧ e.name ≠ "Dockerfile" ∧ e.name ≠ "Containerfile" ∧
    le.path = renderPath e.segs := by
  unfold archiveEntry at h
  split at h
  · cases h
  next h0 =>
  split at h
  · cases h
  next h1 =>
  push_neg at h1
  refine ⟨h0, h1.1, h1.2, ?_⟩
  split at h <;> first | (cases h; rfl) | cases h

/-- A joined path of at least two components contains a `/`, so it cannot
equal a slash-free target string; a one-component path is its own base
name. -/
theorem renderPath_ne_of_no_slash (segs : List String) (hne : segs ≠ [])
    (target : String) (htarget : '/' ∉ target.data)
    (hlast : segs.getLastD "" ≠ target) : renderPath segs ≠ target := by
  cases segs with
  | nil => exact absurd rfl hne
  | cons s rest =>
    cases rest with
    | nil => simpa [renderPath, List.getLastD] using hlast
    | cons s2 rest2 =>
      intro heq
      apply htarget
      rw [← heq]
      show '/' ∈ (renderPath (s :: s2 :: rest2)).data
      simp [renderPath, String.data_append]

/-- **C6**: for all build contexts, the emitted layer never contains an
entry whose header name equals either accepted manifest filename. -/
theorem C6_manifest_never_in_layer (visits : List VisitEntry) (le : LayerEntry)
    (h : le ∈ createLayerFromContext visits) :
    le.path ≠ "Dockerfile" ∧ le.path ≠ "Containerfile" := by
  obtain ⟨e, _, harch⟩ := List.mem_filterMap.mp h
  obtain ⟨h0, hd, hc, hpath⟩ := archiveEntry_path e le harch
  rw [hpath]
  exact ⟨renderPath_ne_of_no_slash e.segs h0 "Dockerfile" (by decide) hd,
    renderPath_ne_of_no_slash e.segs h0 "Containerfile" (by decide) hc⟩

/-- Witness for C6 at a concrete context with one regular file. -/
theorem C6_manifest_never_in_layer_witness :
    (LayerEntry.file "app.txt" 420 [104, 105]).path ≠ "Dockerfile" ∧
    (LayerEntry.file "app.txt" 420 [104, 105]).path ≠ "Containerfile" :=
  C6_manifest_never_in_layer [⟨["app.txt"], 420, .regular [104, 105]⟩]
    (LayerEntry.file "app.txt" 420 [104, 105]) (by decide)

/-- **C5 counterexample**: a context whose subdirectory `sub` contains a
regular file named `Containerfile` — not the manifest file itself, which
lives at the context root — produces a layer without any entry for
`sub/Containerfile`: the walk callback excludes every entry whose base
name is `Dockerfile` or `Containerfile`, not only the manifest file. -/
theorem C5_counterexample :
    createLayerFromContext
      [⟨[], 493, .directory⟩,
       ⟨["Containerfile"], 420, .regular [70, 82]⟩,
       ⟨["sub"], 493, .directory⟩,
       ⟨["sub", "Containerfile"], 420, .regular [104, 105]⟩]
      = [.dir "sub" 493] ∧
    LayerEntry.file "sub/Containerfile" 420 [104, 105] ∉
      createLayerFromContext
        [⟨[], 493, .directory⟩,
         ⟨["Containerfile"], 420, .regular [70, 82]⟩,
         ⟨["sub"], 493, .directory⟩,
         ⟨["sub", "Containerfile"], 420, .regular [104, 105]⟩] := by
  constructor <;> decide

/-- **C5 amended**: every visited entry that is a regular file, directory,
or symlink appears in the emitted layer — regular files with exact byte
content and permission bits, directories with permission bits, symlinks
with their literal target — except that every entry whose base name is
either accepted manifest filename (`Dockerfile` or `Containerfile`), at any
depth, is omitted. -/
theorem C5_layer_content (visits : List VisitEntry) (e : VisitEntry)
    (he : e ∈ visits) :
    (e.segs ≠ [] → e.name ≠ "Dockerfile" → e.name ≠ "Containerfile" →
      (∀ c, e.kind = .regular c →
        LayerEntry.file e.relPath e.mode c ∈ createLayerFromContext visits) ∧
      (e.kind = .directory →
        LayerEntry.dir e.relPath e.mode ∈ createLayerFromContext visits) ∧
      (∀ t, e.kind = .symlink t →
        LayerEntry.symlink e.relPath t ∈ createLayerFromContext visits)) ∧
    ((e.name = "Dockerfile" ∨ e.name = "Containerfile") →
      archiveEntry e = none) := by
  constructor
  · intro h0 hd hc
    have harch : ∀ le, archiveEntry e = some le → le ∈ createLayerFromContext visits :=
      fun le h => List.mem_filterMap.mpr ⟨e, he, h⟩
    refine ⟨fun c hk => harch _ ?_, fun hk => harch _ ?_, fun t hk => harch _ ?_⟩ <;>
      simp [archiveEntry, h0, hd, hc, hk]
  · intro h1
    simp [archiveEntry, h1]

/-- Witness for C5's amended statement at a concrete context. -/
theorem C5_layer_content_witness :
    LayerEntry.file "app.txt" 420 [104, 105] ∈
      createLayerFromContext [⟨["app.txt"], 420, .regular [104, 105]⟩] :=
  ((C5_layer_content [⟨["app.txt"], 420, .regular [104, 105]⟩]
      ⟨["app.txt"], 420, .regular [104, 105]⟩ (by decide)).1
    (by decide) (by decide) (by decide)).1 [104, 105] rfl

/-- **C10**: with `--no-push` set, credential resolution is never performed:
no `resolveAuth` action ever appears in the single-workload driver trace,
and the build returns successfully even when the explicit token, the
environment token, and the secret-store trigger variable are all empty —
the `"no authentication available"` failure is unreachable. -/
theorem C10_no_push_skips_auth (env : DriverEnv) (sign isLocal : Bool)
    (name : String) :
    DriverEvent.resolveAuth ∉ (buildSingleWorkload env sign isLocal true name).1 ∧
    (env.cliToken = "" → env.githubToken = "" → env.opServiceAccountToken = "" →
      env.dirExists name = true →
      (BuildAndPush sign true (env.outcomes name)).2 = .ok () →
      (buildSingleWorkload env sign isLocal true name).2 = .ok ()) := by
  have hreg : registryPhase env isLocal true = ([], .ok ()) := by
    simp [registryPhase]
  have hauth : authPhase env true = ([], .ok ()) := by
    simp [authPhase]
  by_cases hdir : env.dirExists name = true
  · cases hbp : (BuildAndPush sign true (env.outcomes name)).2 with
    | error e =>
      have hfull : buildSingleWorkload env sign isLocal true name
          = ([.buildWorkload name], .error 1) := by
        simp [buildSingleWorkload, hdir, hreg, hauth, hbp]
      exact ⟨by rw [hfull]; simp, fun _ _ _ _ hok => by cases hok⟩
    | ok u =>
      cases u
      have hfull : buildSingleWorkload env sign isLocal true name
          = ([.buildWorkload name], .ok ()) := by
        simp [buildSingleWorkload, hdir, hreg, hauth, hbp]
      exact ⟨by rw [hfull]; simp, fun _ _ _ _ _ => by rw [hfull]⟩
  · have hdir' : env.dirExists name = false := by simpa using hdir
    have hfull : buildSingleWorkload env sign isLocal true name = ([], .error 1) := by
      simp [buildSingleWorkload, hdir']
    refine ⟨by rw [hfull]; simp, fun _ _ _ hd _ => ?_⟩
    rw [hd] at hdir'
    cases hdir'

/-- Witness for C10 at a concrete environment with every credential source
empty. -/
theorem C10_no_push_skips_auth_witness :
    (buildSingleWorkload
      ⟨fun _ => true, true, "", "", "", "", .error "e",
        fun _ => ⟨.ok (), .ok (), .ok ()⟩⟩
      false false true "alpha").2 = .ok () :=
  (C10_no_push_skips_auth
      ⟨fun _ => true, true, "", "", "", "", .error "e",
        fun _ => ⟨.ok (), .ok (), .ok ()⟩⟩
      false false "alpha").2 rfl rfl rfl rfl rfl

/-- Under a reachable local registry, an existing container directory, a
resolvable credential, and a successful build, `buildSingleWorkload` in
local push mode runs the probe, the credential step, and the build, in that
order, and returns normally. -/
theorem buildSingleWorkload_local_ok (env : DriverEnv) (sign : Bool) (w : String)
    (hdir : env.dirExists w = true) (hreg : env.registryOk = true)
    (hauth : ∃ a, GetAuthConfig env.cliUsername env.cliToken env.githubToken
      env.opServiceAccountToken env.opResolve = .ok a)
    (hbuild : (BuildAndPush sign false (env.outcomes w)).2 = .ok ()) :
    buildSingleWorkload env sign true false w
      = ([.validateRegistry, .resolveAuth, .buildWorkload w], .ok ()) := by
  obtain ⟨a, ha⟩ := hauth
  simp [buildSingleWorkload, registryPhase, authPhase, hdir, hreg, ha, hbuild]

/-- Each iteration of the batch loop re-runs the local-registry probe: under
the hypotheses of `buildSingleWorkload_local_ok` for every workload, the
loop's trace holds exactly one probe per workload. -/
theorem buildLoop_local_count (env : DriverEnv) (sign : Bool) (ws : List String)
    (hdir : ∀ w, env.dirExists w = true) (hreg : env.registryOk = true)
    (hauth : ∃ a, GetAuthConfig env.cliUsername env.cliToken env.githubToken
      env.opServiceAccountToken env.opResolve = .ok a)
    (hbuild : ∀ w, (BuildAndPush sign false (env.outcomes w)).2 = .ok ()) :
    (buildLoop env sign true false ws).1.count .validateRegistry = ws.length ∧
    (buildLoop env sign true false ws).2 = .ok () := by
  induction ws with
  | nil => exact ⟨rfl, rfl⟩
  | cons w rest ih =>
    obtain ⟨ih1, ih2⟩ := ih
    rcases hloop : buildLoop env sign true false rest with ⟨tr, r⟩
    rw [hloop] at ih1 ih2
    simp only at ih1 ih2
    subst ih2
    rw [buildLoop,
      buildSingleWorkload_local_ok env sign w (hdir w) hreg hauth (hbuild w), hloop]
    simp [List.count_append, List.count_cons, ih1, Nat.add_comm]

/-- **C8 counterexample**: a batch invocation in local push mode with two
workloads, a reachable registry, and fully successful builds performs the
reachability probe three times — once up front in `buildAllWorkloads` and
once more inside `buildSingleWorkload` for each workload — not once. -/
theorem C8_counterexample :
    (buildAllWorkloads
      ⟨fun _ => true, true, "u", "tok", "", "", .error "e",
        fun _ => ⟨.ok (), .ok (), .ok ()⟩⟩
      false true false ["alpha", "beta"]).1.count .validateRegistry = 3 ∧
    (buildAllWorkloads
      ⟨fun _ => true, true, "u", "tok", "", "", .error "e",
        fun _ => ⟨.ok (), .ok (), .ok ()⟩⟩
      false true false ["alpha", "beta"]).2 = .ok () := by
  exact ⟨rfl, rfl⟩

/-- **C8 amended**: when local-mode pushing is selected, a single-workload
invocation performs the reachability probe exactly once, while a batch
invocation performs it once up front and then once more per workload —
`ws.length + 1` times for `ws` workloads — because `buildAllWorkloads`
probes before the loop and `buildSingleWorkload` probes again for each
workload. -/
theorem C8_probe_per_invocation (env : DriverEnv) (sign : Bool) (name : String)
    (ws : List String)
    (hdir : ∀ w, env.dirExists w = true) (hreg : env.registryOk = true)
    (hauth : ∃ a, GetAuthConfig env.cliUsername env.cliToken env.githubToken
      env.opServiceAccountToken env.opResolve = .ok a)
    (hbuild : ∀ w, (BuildAndPush sign false (env.outcomes w)).2 = .ok ()) :
    (buildSingleWorkload env sign true false name).1.count .validateRegistry = 1 ∧
    (ws ≠ [] →
      (buildAllWorkloads env sign true false ws).1.count .validateRegistry
        = ws.length + 1) := by
  constructor
  · rw [buildSingleWorkload_local_ok env sign name (hdir name) hreg hauth
      (hbuild name)]
    simp [List.count_cons]
  · intro hws
    obtain ⟨hc, _⟩ := buildLoop_local_count env sign ws hdir hreg hauth hbuild
    rcases hloop : buildLoop env sign true false ws with ⟨tr, r⟩
    rw [hloop] at hc
    simp only at hc
    rw [buildAllWorkloads, if_neg hws]
    simp [registryPhase, hreg, hloop, List.count_append, List.count_cons, hc,
      Nat.add_comm]

/-- Witness for C8's amended statement at a concrete environment and a
two-workload batch. -/
theorem C8_probe_per_invocation_witness :
    (buildAllWorkloads
      ⟨fun _ => true, true, "u", "tok", "", "", .error "e",
        fun _ => ⟨.ok (), .ok (), .ok ()⟩⟩
      false true false ["alpha", "beta"]).1.count .validateRegistry
      = ["alpha", "beta"].length + 1 :=
  (C8_probe_per_invocation
      ⟨fun _ => true, true, "u", "tok", "", "", .error "e",
        fun _ => ⟨.ok (), .ok (), .ok ()⟩⟩
      false "alpha" ["alpha", "beta"]
      (fun _ => rfl) rfl ⟨⟨"u", "tok", "cli"⟩, rfl⟩ (fun _ => rfl)).2
    (by decide)

/-- **C1**: evaluation of a two-workload batch in which the first workload's
build fails (its context has no `Containerfile`/`Dockerfile`). The failure
path of `buildSingleWorkload` calls `exitWithError`, which terminates the
process with exit code 1, so the batch aborts: the second workload is never
built, and the loop's continue-on-error branch (main.go:855-858) is dead
code — contradicting both the claim and the loop's own comment. -/
theorem C1_failure_aborts_batch :
    buildAllWorkloads
      ⟨fun _ => true, true, "", "", "", "", .error "e",
        fun w => if w = "alpha" then
            ⟨.error "neither Containerfile nor Dockerfile found in containers/alpha",
              .ok (), .ok ()⟩
          else ⟨.ok (), .ok (), .ok ()⟩⟩
      false false true ["alpha", "beta"]
      = ([.buildWorkload "alpha"], .error 1) ∧
    DriverEvent.buildWorkload "beta" ∉
      (buildAllWorkloads
        ⟨fun _ => true, true, "", "", "", "", .error "e",
          fun w => if w = "alpha" then
              ⟨.error "neither Containerfile nor Dockerfile found in containers/alpha",
                .ok (), .ok ()⟩
            else ⟨.ok (), .ok (), .ok ()⟩⟩
        false false true ["alpha", "beta"]).1 := by
  exact ⟨rfl, by decide⟩

end Iago
